import Mathlib

/-!
Shallow embedding of the go-retryable-httpclient request-lifecycle and
error-classification pipeline (package `httpclient`).

Sources embedded:
- `httpclient/error.go`: `HttpError`, `Error`, `sameStatusCodes`,
  `sameBodies`, `sameErrors`, `Is`.
- `httpclient/httpclient.go`: `handleUnsuccessfulResponse`,
  `decodeResponse`, `do`, `doNotRetryPolicy`, `patchRetryableClient`,
  `Client`, `logRequestDump`, `sendRequest`, `newClient`.
- the options file: `Option` (here `ClientOption`) and the `With*`
  option constructors.

The staged copy of the package is missing the response-dump feature
that its own unit tests and README document and exercise
(`WithResponseDumpLogger`, the `responseDumpLogger`/`dumpResponseBody`
client fields, the package-level `dumpResponse` variable and the
post-send dump step): those parts are modelled from the spec and marked
as such on their definitions.

External collaborators (the hashicorp retryable sender, `io.ReadAll`,
`encoding/json`, `httputil.DumpRequestOut`) are modelled as values
carried by the request/response: the final outcome of the retrying send
is a field of the request, a body carries the result of reading it and
the result of JSON-decoding it.
-/

/-- Go `error` values.  Identity (Go `==` on the interface value) is
modelled by structural equality where `base` carries a distinguishing
id: two separately created errors get different ids.  `wrap ctx e`
models `errors.Wrap(e, ctx)` from github.com/pkg/errors, whose message
is `ctx ++ ": " ++ e.msg`. -/
inductive GoErr where
  | base (id : Nat) (msg : String)
  | wrap (ctx : String) (e : GoErr)
deriving DecidableEq

/-- The message a Go error renders (`err.Error()` / `%v`). -/
def GoErr.msg : GoErr → String
  | .base _ m => m
  | .wrap ctx e => ctx ++ ": " ++ e.msg

/-- The `fmt` rendering of a possibly-nil error: `%v` prints `<nil>` for a
nil error and the message otherwise. -/
def errText : Option GoErr → String
  | none => "<nil>"
  | some e => e.msg

instance {α β : Type} [DecidableEq α] [DecidableEq β] :
    DecidableEq (Except α β) := fun x y =>
  match x, y with
  | .ok a, .ok b =>
      if h : a = b then .isTrue (by rw [h]) else .isFalse (by simp [h])
  | .error a, .error b =>
      if h : a = b then .isTrue (by rw [h]) else .isFalse (by simp [h])
  | .ok _, .error _ => .isFalse (by simp)
  | .error _, .ok _ => .isFalse (by simp)

/-- An HTTP response body, with its external I/O behaviour recorded:
`readResult` is what `io.ReadAll` returns on it, `decodeResult` is what
`json.NewDecoder(...).Decode` returns (`none` = success). -/
structure Body where
  readResult : Except GoErr String
  decodeResult : Option GoErr
deriving DecidableEq

/-- Embeds `*http.Response`: the fields the pipeline inspects. -/
structure Response where
  statusCode : Nat
  body : Body
deriving DecidableEq

/-- Embeds `HttpError` from `error.go`.  Field defaults are Go zero values, as
produced by a composite literal that omits fields. -/
structure HttpError where
  url : String := ""
  statusCode : Nat := 0
  body : String := ""
  err : Option GoErr := none
deriving DecidableEq

/-- Means `ned` is a prefix of `hay` (char lists). -/
def startsW : List Char → List Char → Bool
  | _, [] => true
  | [], _ :: _ => false
  | h :: hs, n :: ns => h == n && startsW hs ns

/-- Means `ned` occurs contiguously in `hay`;
embeds Go `strings.Contains(hay, ned)`. -/
def containsSub : List Char → List Char → Bool
  | [], ned => ned.isEmpty
  | h :: hs, ned => startsW (h :: hs) ned || containsSub hs ned

/-- Go `strings.Contains`. -/
def strContains (s t : String) : Bool := containsSub s.data t.data

/-- Embeds `sameStatusCodes` from `error.go`: equal, or `anotherStatus` is 0. -/
def sameStatusCodes (status anotherStatus : Nat) : Bool :=
  status == anotherStatus || anotherStatus == 0

/-- Embeds `sameBodies` from `error.go`: `strings.Contains(body, anotherBody)`
or `anotherBody` empty. -/
def sameBodies (body anotherBody : String) : Bool :=
  strContains body anotherBody || anotherBody == ""

/-- Embeds `sameErrors` from `error.go`: Go `==` on the error values. -/
def sameErrors (err anotherErr : Option GoErr) : Bool :=
  err == anotherErr

/-- Embeds `(*HttpError).Is` from `error.go`.  The target is an `error`
interface value: `none` models a nil target (Is returns false).  A
target of a non-HttpError dynamic type also returns false in Go; only
HttpError targets are modelled, which is all the claims quantify
over. -/
def HttpError.Is (e : HttpError) (targetErr : Option HttpError) : Bool :=
  match targetErr with
  | none => false
  | some t =>
      sameStatusCodes e.statusCode t.statusCode &&
      sameBodies e.body t.body &&
      sameErrors e.err t.err

/-- Embeds `(*HttpError).Error` from `error.go`: the formatted message.  The
status renders as the decimal code when positive, otherwise
"no status". -/
def HttpError.Error (e : HttpError) : String :=
  "request to " ++ e.url ++
    (" failed. httpStatus: [ " ++
      (if e.statusCode > 0 then toString e.statusCode else "no status") ++
      (" ] responseBody: [ " ++ e.body ++
        (" ] error: [ " ++ (errText e.err ++ " ]"))))

/-- Embeds `handleUnsuccessfulResponse` from `httpclient.go`: classify a
(possibly nil) response plus (possibly nil) transport error into
`none` (success) or an `HttpError`. -/
def handleUnsuccessfulResponse (url : String) (resp : Option Response)
    (receivedError : Option GoErr) : Option HttpError :=
  match resp with
  | some r =>
      if r.statusCode ≥ 400 then
        match r.body.readResult with
        | .error e =>
            some { url := url, statusCode := r.statusCode,
                   err := some (GoErr.wrap "parsing response" e) }
        | .ok s =>
            some { url := url, statusCode := r.statusCode,
                   body := s, err := receivedError }
      else
        match receivedError with
        | some e => some { url := url, err := some e }
        | none => none
  | none =>
      match receivedError with
      | some e => some { url := url, err := some e }
      | none => none

/-- Embeds `decodeResponse` from `httpclient.go`: when a destination was
supplied (`v = true`) and the response is non-nil, JSON-decode the body
into it; a decode failure becomes an `HttpError` carrying the
response's status code and a wrapped "decoding response" error. -/
def decodeResponse (url : String) (resp : Option Response) (v : Bool) :
    Option HttpError :=
  if v then
    match resp with
    | some r =>
        match r.body.decodeResult with
        | some e =>
            some { url := url, statusCode := r.statusCode,
                   err := some (GoErr.wrap "decoding response" e) }
        | none => none
    | none => none
  else none

/-- A built request.  `dumpOut` records what `httputil.DumpRequestOut`
returns for it at each body-inclusion flag; `sendOutcome` records the
final (response, error) pair the retry-capable sender
(`retryablehttp.Client.Do`) produces for it; `dumpRespOut` records what
the response serializer (the package-level `dumpResponse` variable,
mocked by the repository's tests) returns for this call's response at
each body-inclusion flag. -/
structure Request where
  url : String
  dumpOut : Bool → Except GoErr (List Nat)
  sendOutcome : Option Response × Option GoErr
  dumpRespOut : Bool → Except GoErr (List Nat) := fun _ => .ok []

/-- A retry check: `(ctx, response, error) -> (shouldRetry, error)`.
The Go `context.Context` is opaque to every embedded function; a bare
token stands for it. -/
abbrev Context : Type := Nat

/-- Embeds `retryablehttp.CheckRetry`. -/
abbrev CheckRetry : Type :=
  Context → Option Response → Option GoErr → Bool × Option GoErr

/-- Embeds `http.Client`: only the timeout is inspected by the embedded
code. -/
structure HClient where
  timeout : Int

/-- The fields of the external `retryablehttp.Client` that
`patchRetryableClient` assigns. -/
structure RClient where
  retryMax : Int
  retryWaitMin : Int
  retryWaitMax : Int
  httpClient : Option HClient
  checkRetry : CheckRetry

/-- The `Client` struct from `httpclient.go`.  Defaults are Go zero
values, as left by `new(Client)`; the nilable pointer and function
fields are `Option`s.  The `responseDumpLogger` and `dumpResponseBody`
fields are modelled from the spec: the staged copy of the package is
missing the response-dump implementation that its own unit tests
(`WithResponseDumpLogger`, the mocked `dumpResponse` variable) and
README require, so those fields follow the spec's configuration
surface. -/
structure Client where
  httpClient : Option HClient := none
  retryableHttpClient : Option RClient := none
  timeout : Int := 0
  maxIdleConns : Int := 0
  maxIdleConnsPerHost : Int := 0
  maxConnsPerHost : Int := 0
  maxRetries : Int := 0
  checkRetryPolicy : Option CheckRetry := none
  retryWaitMin : Int := 0
  retryWaitMax : Int := 0
  requestDumpLogger : Option Unit := none
  dumpRequestBody : Bool := false
  responseDumpLogger : Option Unit := none
  dumpResponseBody : Bool := false

/-- Embeds `doNotRetryPolicy` from `httpclient.go`: never retry, surface no
error. -/
def doNotRetryPolicy : CheckRetry := fun _ _ _ => (false, none)

/-- Embeds `patchRetryableClient` from `httpclient.go`: copy the retry
settings onto the retryable client; install `doNotRetryPolicy` as the
retry check, replaced by the caller's policy when one was supplied. -/
def patchRetryableClient (client : Client) : Client :=
  let rc : RClient :=
    { retryMax := client.maxRetries
      retryWaitMin := client.retryWaitMin
      retryWaitMax := client.retryWaitMax
      httpClient := client.httpClient
      checkRetry :=
        match client.checkRetryPolicy with
        | none => doNotRetryPolicy
        | some p => p }
  { client with retryableHttpClient := some rc }

/-- Embeds `retryableHttpClientDo` from `httpclient.go`: one logical send
through the external retrying sender; its final outcome is the one
recorded on the request. -/
def retryableHttpClientDo (_rc : RClient) (req : Request) :
    Option Response × Option GoErr :=
  req.sendOutcome

/-- Embeds `do` from `httpclient.go` (`do` is reserved in Lean): send, classify
via `handleUnsuccessfulResponse`, then decode via `decodeResponse`;
the response is returned alongside any error. -/
def doRequest (rc : RClient) (req : Request) (v : Bool) :
    Option Response × Option HttpError :=
  let (resp, err) := retryableHttpClientDo rc req
  match handleUnsuccessfulResponse req.url resp err with
  | some e => (resp, some e)
  | none =>
      match decodeResponse req.url resp v with
      | some e => (resp, some e)
      | none => (resp, none)

/-- Observable diagnostic-dump invocations made by the pipeline.
`respDump` is the event a response dump would produce. -/
inductive DumpEvent where
  | reqDump (dump : List Nat)
  | respDump (dump : List Nat)
deriving DecidableEq

/-- Whether an event is a request dump. -/
def DumpEvent.isReq : DumpEvent → Bool
  | .reqDump _ => true
  | .respDump _ => false

/-- Embeds `logRequestDump` from `httpclient.go`: when a request-dump logger is
configured, serialize the outgoing request and invoke the logger;
serialization failures are swallowed and the logger is not called. -/
def logRequestDump (c : Client) (req : Request) : List DumpEvent :=
  match c.requestDumpLogger with
  | none => []
  | some _ =>
      match req.dumpOut c.dumpRequestBody with
      | .ok d => [DumpEvent.reqDump d]
      | .error _ => []

/-- Modelled from the spec: the response-dump step, whose
implementation is missing from the staged copy of `httpclient.go`
although the package's unit tests mock its `dumpResponse` variable and
exercise it ("dumping non-nil response", "error when dumping
response").  Per the spec, after the send, "if a response-dump logger
is configured, serialize the response the same way and invoke it, same
swallow-on-failure rule": with a logger configured and a non-nil
response, a successful serialization invokes the logger and a failed
one is swallowed (the logger is not called). -/
def logResponseDump (c : Client) (req : Request) : List DumpEvent :=
  match c.responseDumpLogger with
  | none => []
  | some _ =>
      match req.sendOutcome.1 with
      | none => []
      | some _ =>
          match req.dumpRespOut c.dumpResponseBody with
          | .ok d => [DumpEvent.respDump d]
          | .error _ => []

/-- The observable outcome of one `sendRequest` call: the returned
response and error, plus the dump-logger invocations made. -/
structure SendResult where
  resp : Option Response
  err : Option HttpError
  events : List DumpEvent

/-- Embeds `sendRequest` from `httpclient.go`: dump the request if
configured, delegate to `do`, and dump the response the send produced
(the response-dump step is modelled from the spec, see
`logResponseDump`; per the spec's pipeline order it follows the send
and does not alter the returned response or error).  A client whose
retryable sender was never installed performs no send (in Go this state
never reaches `sendRequest`: `New` always installs it). -/
def sendRequest (c : Client) (req : Request) (v : Bool) : SendResult :=
  let events := logRequestDump c req
  match c.retryableHttpClient with
  | some rc =>
      let r := doRequest rc req v
      { resp := r.1, err := r.2,
        events := events ++ logResponseDump c req }
  | none => { resp := none, err := none, events := events }

/-- A configuration option (`Option` in the source; renamed to avoid
the Lean `Option` type). -/
abbrev ClientOption : Type := Client → Client

/-- Embeds `newClient`: start from the zero-value client and apply each
option. -/
def newClient (options : List ClientOption) : Client :=
  options.foldl (fun c o => o c) {}

/-- The `WithHttpClient` option. -/
def WithHttpClient (h : HClient) : ClientOption :=
  fun c => { c with httpClient := some h }

/-- The `WithTimeout` option. -/
def WithTimeout (t : Int) : ClientOption :=
  fun c => { c with timeout := t }

/-- The `WithMaxIdleConns` option. -/
def WithMaxIdleConns (n : Int) : ClientOption :=
  fun c => { c with maxIdleConns := n }

/-- The `WithMaxIdleConnsPerHost` option. -/
def WithMaxIdleConnsPerHost (n : Int) : ClientOption :=
  fun c => { c with maxIdleConnsPerHost := n }

/-- The `WithMaxConnsPerHost` option. -/
def WithMaxConnsPerHost (n : Int) : ClientOption :=
  fun c => { c with maxConnsPerHost := n }

/-- The `WithMaxRetries` option. -/
def WithMaxRetries (n : Int) : ClientOption :=
  fun c => { c with maxRetries := n }

/-- The `WithRetryWaitMin` option. -/
def WithRetryWaitMin (n : Int) : ClientOption :=
  fun c => { c with retryWaitMin := n }

/-- The `WithRetryWaitMax` option. -/
def WithRetryWaitMax (n : Int) : ClientOption :=
  fun c => { c with retryWaitMax := n }

/-- The `WithCheckRetryPolicy` option. -/
def WithCheckRetryPolicy (p : CheckRetry) : ClientOption :=
  fun c => { c with checkRetryPolicy := some p }

/-- The `WithRequestDumpLogger` option: the logger callback (its identity
is irrelevant here, so `Unit` stands for it) and the body-inclusion
flag. -/
def WithRequestDumpLogger (f : Unit) (dumpRequestBody : Bool) :
    ClientOption :=
  fun c => { c with requestDumpLogger := some f,
                    dumpRequestBody := dumpRequestBody }

/-- Modelled from the spec: the `WithResponseDumpLogger` option, absent
from the staged (truncated) options file but listed by the spec's
configuration surface ("responseDumpLogger(+includeBody)"), documented
in the repository README and called by the package's unit tests.
Mirrors `WithRequestDumpLogger`: the logger callback and the
body-inclusion flag. -/
def WithResponseDumpLogger (f : Unit) (dumpResponseBody : Bool) :
    ClientOption :=
  fun c => { c with responseDumpLogger := some f,
                    dumpResponseBody := dumpResponseBody }

/-- The configuration surface: the exported option constructors the
options file defines (with `WithResponseDumpLogger` restored per the
spec, README and tests), one name per `With*` function above. -/
def recognizedOptionNames : List String :=
  ["WithHttpClient", "WithTimeout", "WithMaxIdleConns",
   "WithMaxIdleConnsPerHost", "WithMaxConnsPerHost", "WithMaxRetries",
   "WithRetryWaitMin", "WithRetryWaitMax", "WithCheckRetryPolicy",
   "WithRequestDumpLogger", "WithResponseDumpLogger"]

/-- Modelled from the spec's words for comparison with the source's
`Is` (claim C3): "status codes are equal OR the target's status code is
0", "bodies match if one contains the other as a substring OR the
target's body is empty", "underlying errors are identical". -/
def IsClaimed (e t : HttpError) : Bool :=
  (e.statusCode == t.statusCode || t.statusCode == 0) &&
  (strContains e.body t.body || strContains t.body e.body ||
    t.body == "") &&
  (e.err == t.err)

/-! Concrete inputs used to instantiate the theorems below. -/

/-- A transport-level error. -/
def terr : GoErr := .base 1 "connection reset"

/-- A 200 response whose body reads and decodes fine. -/
def respOk : Response :=
  { statusCode := 200, body := { readResult := .ok "ok", decodeResult := none } }

/-- A 502 response whose body reads fine. -/
def resp502 : Response :=
  { statusCode := 502,
    body := { readResult := .ok "bad gateway", decodeResult := none } }

/-- A 500 response whose body read fails. -/
def resp500bad : Response :=
  { statusCode := 500,
    body := { readResult := .error (.base 3 "read failed"),
              decodeResult := none } }

/-- A 200 response whose body is not decodable JSON. -/
def respBadJson : Response :=
  { statusCode := 200,
    body := { readResult := .ok "not json",
              decodeResult := some (.base 5 "invalid json") } }

/-- A retryable client as installed with no custom policy. -/
def rcDefault : RClient :=
  { retryMax := 0, retryWaitMin := 0, retryWaitMax := 0,
    httpClient := none, checkRetry := doNotRetryPolicy }

/-- A successful request whose dump serializes to two bytes. -/
def req1 : Request :=
  { url := "http://svc/a", dumpOut := fun _ => .ok [72, 84],
    sendOutcome := (some respOk, none) }

/-- A request whose wire dump fails to serialize. -/
def failDumpReq : Request :=
  { url := "http://svc/a", dumpOut := fun _ => .error (.base 9 "dump fail"),
    sendOutcome := (some respOk, none) }

/-- A request that gets a 200 response together with a transport
error. -/
def reqTransErr : Request :=
  { url := "http://svc/a", dumpOut := fun _ => .ok [],
    sendOutcome := (some respOk, some terr) }

/-- A request whose 200 response body is not decodable JSON. -/
def reqBadJson : Request :=
  { url := "http://svc/b", dumpOut := fun _ => .ok [],
    sendOutcome := (some respBadJson, none) }

/-- A client with a request-dump logger configured. -/
def cfg1 : Client :=
  { retryableHttpClient := some rcDefault, requestDumpLogger := some (),
    dumpRequestBody := true }

/-- A client with no dump logger configured. -/
def cfgNoLog : Client := { retryableHttpClient := some rcDefault }

/-- A client with a response-dump logger configured through the
option constructor. -/
def cfgRespLog : Client :=
  WithResponseDumpLogger () false { retryableHttpClient := some rcDefault }

/-- A successful request whose response serializes to two bytes. -/
def respDumpOkReq : Request :=
  { url := "http://svc/c", dumpOut := fun _ => .ok [7],
    sendOutcome := (some respOk, none),
    dumpRespOut := fun _ => .ok [3, 4] }

/-- A successful request whose response fails to serialize. -/
def respDumpFailReq : Request :=
  { url := "http://svc/c", dumpOut := fun _ => .ok [7],
    sendOutcome := (some respOk, none),
    dumpRespOut := fun _ => .error (.base 11 "resp dump fail") }

/-- A retry policy that always retries. -/
def policyAlways : CheckRetry := fun _ _ _ => (true, none)

/-! Helper lemmas. -/

/-- Soundness and completeness of `startsW`: it decides whether the
needle starts the haystack. -/
theorem startsW_iff (h n : List Char) :
    startsW h n = true ↔ ∃ t, h = n ++ t := by
  induction n generalizing h with
  | nil => simp [startsW]
  | cons x xs ih =>
    cases h with
    | nil => simp [startsW]
    | cons y ys =>
      simp [startsW, ih, List.cons.injEq, exists_and_left]

/-- Soundness and completeness of `containsSub`: it decides
contiguous-substring occurrence. -/
theorem containsSub_iff (h n : List Char) :
    containsSub h n = true ↔ ∃ a b, h = a ++ n ++ b := by
  induction h with
  | nil =>
    simp only [containsSub]
    constructor
    · intro he
      have hn : n = [] := by
        cases n with
        | nil => rfl
        | cons _ _ => simp [List.isEmpty] at he
      subst hn
      exact ⟨[], [], rfl⟩
    · rintro ⟨a, b, hab⟩
      have h1 := List.append_eq_nil.mp hab.symm
      have h2 := List.append_eq_nil.mp h1.1
      rw [h2.2]
      rfl
  | cons y ys ih =>
    simp only [containsSub, Bool.or_eq_true, startsW_iff, ih]
    constructor
    · rintro (⟨t, ht⟩ | ⟨a, b, hab⟩)
      · exact ⟨[], t, by simpa using ht⟩
      · exact ⟨y :: a, b, by simp [hab]⟩
    · rintro ⟨a, b, hab⟩
      cases a with
      | nil => exact Or.inl ⟨b, by simpa using hab⟩
      | cons z zs =>
        simp only [List.cons_append, List.cons.injEq] at hab
        exact Or.inr ⟨zs, b, hab.2⟩

/-- Go `strings.Contains` characterised: the needle occurs contiguously
in the haystack. -/
theorem strContains_iff (s t : String) :
    strContains s t = true ↔ ∃ a b, s.data = a ++ t.data ++ b :=
  containsSub_iff s.data t.data

/-- Classification of a sub-400 response accompanied by a transport
error surfaces that error as a zero-status `HttpError`. -/
theorem handle_lt400_surfaces (url : String) (r : Response) (e : GoErr)
    (hlt : r.statusCode < 400) :
    handleUnsuccessfulResponse url (some r) (some e) =
      some { url := url, err := some e } := by
  have hn : ¬ (400 ≤ r.statusCode) := Nat.not_le.mpr hlt
  simp [handleUnsuccessfulResponse, hn]

/-- The dump events of one `sendRequest` call on a built client are the
request dump followed by the response dump. -/
theorem sendRequest_events (c : Client) (rc : RClient) (req : Request)
    (v : Bool) (hc : c.retryableHttpClient = some rc) :
    (sendRequest c req v).events =
      logRequestDump c req ++ logResponseDump c req := by
  simp [sendRequest, hc]

/-- The response and error of one `sendRequest` call on a built client
are exactly the pipeline's: the dump steps alter neither. -/
theorem sendRequest_outcome (c : Client) (rc : RClient) (req : Request)
    (v : Bool) (hc : c.retryableHttpClient = some rc) :
    (sendRequest c req v).resp = (doRequest rc req v).1 ∧
    (sendRequest c req v).err = (doRequest rc req v).2 := by
  simp [sendRequest, hc]

/-- Every event `logRequestDump` emits is a request dump. -/
theorem logRequestDump_only_req (c : Client) (req : Request) :
    (logRequestDump c req).all DumpEvent.isReq = true := by
  cases hl : c.requestDumpLogger with
  | none => simp [logRequestDump, hl]
  | some u =>
    cases hd : req.dumpOut c.dumpRequestBody <;>
      simp [logRequestDump, hl, hd, DumpEvent.isReq]

/-! Claim theorems. -/

/-- Claim C1, counterexample: a 200 response accompanied by a non-nil
transport error does NOT classify as no-error; `handleUnsuccessfulResponse`
surfaces the transport error as an `HttpError`, so the pipeline does
not fall through to decoding. -/
theorem c1_counterexample :
    handleUnsuccessfulResponse "http://svc/a" (some respOk) (some terr) ≠
      none ∧
    handleUnsuccessfulResponse "http://svc/a" (some respOk) (some terr) =
      some { url := "http://svc/a", err := some terr } := by
  have h : handleUnsuccessfulResponse "http://svc/a" (some respOk)
      (some terr) = some { url := "http://svc/a", err := some terr } := rfl
  exact ⟨by rw [h]; simp, h⟩

/-- Claim C1, amended: for every classification call where the response
is non-nil with status code < 400 and a non-nil transport error is
present, classification returns a StructuredError with statusCode 0,
empty body and underlying error equal to the transport error, and the
pipeline returns immediately with that error instead of falling through
to decoding. -/
theorem c1_amended :
    (∀ (url : String) (r : Response) (e : GoErr), r.statusCode < 400 →
      handleUnsuccessfulResponse url (some r) (some e) =
        some { url := url, statusCode := 0, body := "", err := some e }) ∧
    (∀ (rc : RClient) (req : Request) (r : Response) (e : GoErr)
        (v : Bool),
      req.sendOutcome = (some r, some e) → r.statusCode < 400 →
      doRequest rc req v =
        (some r, some { url := req.url, statusCode := 0, body := "",
                        err := some e })) := by
  constructor
  · intro url r e hlt
    exact handle_lt400_surfaces url r e hlt
  · intro rc req r e v hso hlt
    simp [doRequest, retryableHttpClientDo, hso,
      handle_lt400_surfaces req.url r e hlt]

/-- Claim C1, witness for the amended theorem. -/
theorem c1_amended_witness :
    handleUnsuccessfulResponse "http://svc/a" (some respOk) (some terr) =
      some { url := "http://svc/a", statusCode := 0, body := "",
             err := some terr } ∧
    doRequest rcDefault reqTransErr true =
      (some respOk, some { url := "http://svc/a", statusCode := 0,
                           body := "", err := some terr }) :=
  ⟨c1_amended.1 "http://svc/a" respOk terr (by decide),
   c1_amended.2 rcDefault reqTransErr respOk terr true rfl (by decide)⟩

/-- Claim C2: every non-nil response with status ≥ 400 whose body reads
successfully classifies as an `HttpError` whose statusCode is the
response's status code, whose body is the full response body, whose url
is the target URL and whose underlying error is the received transport
error. -/
theorem c2_app_error_classification :
    ∀ (url s : String) (code : Nat) (b : Body) (recvErr : Option GoErr),
      400 ≤ code → b.readResult = .ok s →
      handleUnsuccessfulResponse url (some { statusCode := code, body := b })
          recvErr =
        some { url := url, statusCode := code, body := s,
               err := recvErr } := by
  intro url s code b recvErr hge hread
  simp [handleUnsuccessfulResponse, hge, hread]

/-- Claim C2, witness. -/
theorem c2_witness :
    handleUnsuccessfulResponse "http://svc/a" (some resp502) (some terr) =
      some { url := "http://svc/a", statusCode := 502,
             body := "bad gateway", err := some terr } :=
  c2_app_error_classification "http://svc/a" "bad gateway" 502 resp502.body
    (some terr) (by decide) rfl

/-- Claim C3, counterexample: with source body "a" and target body "ab"
(statuses equal, errors identical) the claimed rule "bodies match if
one contains the other" holds, yet `Is` returns false: the code only
checks that the source's body contains the target's. -/
theorem c3_counterexample :
    IsClaimed { statusCode := 500, body := "a" }
        { statusCode := 500, body := "ab" } = true ∧
    HttpError.Is { statusCode := 500, body := "a" }
        (some { statusCode := 500, body := "ab" }) = false :=
  ⟨rfl, rfl⟩

/-- Claim C3, amended: `Is` returns true iff (status codes are equal OR
the target's status code is 0) AND (the SOURCE's body contains the
target's body as a substring OR the target's body is empty) AND the
underlying errors are identical. -/
theorem c3_amended :
    ∀ e t : HttpError,
      HttpError.Is e (some t) = true ↔
        ((e.statusCode = t.statusCode ∨ t.statusCode = 0) ∧
         ((∃ a b, e.body.data = a ++ t.body.data ++ b) ∨ t.body = "") ∧
         e.err = t.err) := by
  intro e t
  simp [HttpError.Is, sameStatusCodes, sameBodies, sameErrors,
    strContains_iff, Bool.and_eq_true, Bool.or_eq_true, beq_iff_eq,
    and_assoc, String.ext_iff]

/-- Claim C4: wildcard behaviour of `Is` — a target with statusCode 0
matches any source status (given the body and error checks pass), and a
target with empty body matches any source body (given the status and
error checks pass). -/
theorem c4_wildcards :
    (∀ e t : HttpError, sameBodies e.body t.body = true →
      sameErrors e.err t.err = true → t.statusCode = 0 →
      HttpError.Is e (some t) = true) ∧
    (∀ e t : HttpError, sameStatusCodes e.statusCode t.statusCode = true →
      sameErrors e.err t.err = true → t.body = "" →
      HttpError.Is e (some t) = true) := by
  constructor
  · intro e t hb he hs
    simp [HttpError.Is, sameStatusCodes, hs, hb, he]
  · intro e t hs he hb
    simp [HttpError.Is, sameBodies, hs, hb, he]

/-- Claim C4, witness. -/
theorem c4_witnesses :
    HttpError.Is { statusCode := 7, body := "xy" }
        (some { statusCode := 0, body := "x" }) = true ∧
    HttpError.Is { statusCode := 7, body := "xy" }
        (some { statusCode := 7, body := "" }) = true :=
  ⟨c4_wildcards.1 { statusCode := 7, body := "xy" }
      { statusCode := 0, body := "x" } (by decide) (by decide) rfl,
   c4_wildcards.2 { statusCode := 7, body := "xy" }
      { statusCode := 7, body := "" } (by decide) (by decide) rfl⟩

/-- Claim C5: a status ≥ 400 response whose body read fails classifies
as an `HttpError` with empty body whose underlying error wraps the read
failure with context "parsing response"; the received transport error
is not surfaced. -/
theorem c5_read_failure_masks :
    ∀ (url : String) (code : Nat) (b : Body) (recvErr : Option GoErr)
      (re : GoErr),
      400 ≤ code → b.readResult = .error re →
      handleUnsuccessfulResponse url (some { statusCode := code, body := b })
          recvErr =
        some { url := url, statusCode := code, body := "",
               err := some (GoErr.wrap "parsing response" re) } := by
  intro url code b recvErr re hge hread
  simp [handleUnsuccessfulResponse, hge, hread]

/-- Claim C5, witness: the transport error `terr` is replaced by the
wrapped read failure. -/
theorem c5_witness :
    handleUnsuccessfulResponse "http://svc/a" (some resp500bad)
        (some terr) =
      some { url := "http://svc/a", statusCode := 500, body := "",
             err := some (GoErr.wrap "parsing response"
               (GoErr.base 3 "read failed")) } :=
  c5_read_failure_masks "http://svc/a" 500 resp500bad.body (some terr)
    (GoErr.base 3 "read failed") (by decide) rfl

/-- Claim C6: with no custom retry policy the installed retry predicate
is `doNotRetryPolicy`, which returns (false, nil) on every input; when
a custom policy is supplied, that policy is installed instead. -/
theorem c6_default_retry_policy :
    (∀ (ctx : Context) (resp : Option Response) (err : Option GoErr),
      doNotRetryPolicy ctx resp err = (false, none)) ∧
    (∀ c : Client, c.checkRetryPolicy = none →
      ∃ rc, (patchRetryableClient c).retryableHttpClient = some rc ∧
        ∀ (ctx : Context) (resp : Option Response) (err : Option GoErr),
          rc.checkRetry ctx resp err = (false, none)) ∧
    (∀ (c : Client) (p : CheckRetry), c.checkRetryPolicy = some p →
      ∃ rc, (patchRetryableClient c).retryableHttpClient = some rc ∧
        rc.checkRetry = p) := by
  refine ⟨fun ctx resp err => rfl, ?_, ?_⟩
  · intro c h
    refine ⟨_, rfl, ?_⟩
    intro ctx resp err
    simp [patchRetryableClient, h, doNotRetryPolicy]
  · intro c p h
    exact ⟨_, rfl, by simp [patchRetryableClient, h]⟩

/-- Claim C6, witness: the zero-value client gets the never-retry
default; a client with `WithCheckRetryPolicy` gets that policy. -/
theorem c6_witness :
    doNotRetryPolicy 0 none none = (false, none) ∧
    (∃ rc, (patchRetryableClient {}).retryableHttpClient = some rc ∧
      ∀ (ctx : Context) (resp : Option Response) (err : Option GoErr),
        rc.checkRetry ctx resp err = (false, none)) ∧
    (∃ rc, (patchRetryableClient
        (WithCheckRetryPolicy policyAlways {})).retryableHttpClient =
          some rc ∧ rc.checkRetry = policyAlways) :=
  ⟨c6_default_retry_policy.1 0 none none,
   c6_default_retry_policy.2.1 {} rfl,
   c6_default_retry_policy.2.2 (WithCheckRetryPolicy policyAlways {})
     policyAlways rfl⟩

/-- Claim C7: classification of a nil response surfaces a present
transport error as an `HttpError` with statusCode 0 and empty body, and
returns no error when the transport error is also absent. -/
theorem c7_nil_response :
    ∀ (url : String) (e : GoErr),
      handleUnsuccessfulResponse url none (some e) =
        some { url := url, statusCode := 0, body := "", err := some e } ∧
      handleUnsuccessfulResponse url none none = none :=
  fun _ _ => ⟨rfl, rfl⟩

/-- Claim C8: with a decode destination supplied and a response that
passed classification, a JSON decode failure returns an `HttpError`
carrying the response's status code and an error wrapping the failure
with context "decoding response", with the original response returned
alongside. -/
theorem c8_decode_failure :
    (∀ (url : String) (code : Nat) (b : Body) (je : GoErr),
      b.decodeResult = some je →
      decodeResponse url (some { statusCode := code, body := b }) true =
        some { url := url, statusCode := code, body := "",
               err := some (GoErr.wrap "decoding response" je) }) ∧
    (∀ (rc : RClient) (req : Request) (r : Response)
        (recvErr : Option GoErr) (je : GoErr),
      req.sendOutcome = (some r, recvErr) →
      handleUnsuccessfulResponse req.url (some r) recvErr = none →
      r.body.decodeResult = some je →
      doRequest rc req true =
        (some r, some { url := req.url, statusCode := r.statusCode,
                        body := "",
                        err := some (GoErr.wrap "decoding response"
                          je) })) := by
  constructor
  · intro url code b je hdec
    simp [decodeResponse, hdec]
  · intro rc req r recvErr je hso hclass hdec
    simp [doRequest, retryableHttpClientDo, hso, hclass, decodeResponse,
      hdec]

/-- Claim C8, witness. -/
theorem c8_witness :
    decodeResponse "http://svc/b" (some respBadJson) true =
      some { url := "http://svc/b", statusCode := 200, body := "",
             err := some (GoErr.wrap "decoding response"
               (GoErr.base 5 "invalid json")) } ∧
    doRequest rcDefault reqBadJson true =
      (some respBadJson,
       some { url := "http://svc/b", statusCode := 200, body := "",
              err := some (GoErr.wrap "decoding response"
                (GoErr.base 5 "invalid json")) }) :=
  ⟨c8_decode_failure.1 "http://svc/b" 200 respBadJson.body
     (GoErr.base 5 "invalid json") rfl,
   c8_decode_failure.2 rcDefault reqBadJson respBadJson none
     (GoErr.base 5 "invalid json") rfl rfl rfl⟩

/-- Claim C9: the configuration surface recognizes a
responseDumpLogger option (with a body-inclusion flag), and for every
call where a response-dump logger is configured, the pipeline
serializes the response obtained by the send and invokes that logger (a
`respDump` event after the request dump), swallowing serialization
failures rather than surfacing them: on a failed serialization no
response-dump event occurs and the call's response and error are
exactly the pipeline's. -/
theorem c9_response_dump :
    "WithResponseDumpLogger" ∈ recognizedOptionNames ∧
    (∀ (c : Client) (rc : RClient) (req : Request) (v : Bool)
        (u : Unit) (r : Response) (d : List Nat),
      c.retryableHttpClient = some rc →
      c.responseDumpLogger = some u →
      req.sendOutcome.1 = some r →
      req.dumpRespOut c.dumpResponseBody = .ok d →
      (sendRequest c req v).events =
        logRequestDump c req ++ [DumpEvent.respDump d]) ∧
    (∀ (c : Client) (rc : RClient) (req : Request) (v : Bool)
        (e : GoErr),
      c.retryableHttpClient = some rc →
      req.dumpRespOut c.dumpResponseBody = .error e →
      (sendRequest c req v).events = logRequestDump c req ∧
      (sendRequest c req v).resp = (doRequest rc req v).1 ∧
      (sendRequest c req v).err = (doRequest rc req v).2) := by
  refine ⟨by decide, ?_, ?_⟩
  · intro c rc req v u r d hc hl hr hd
    rw [sendRequest_events c rc req v hc]
    simp [logResponseDump, hl, hr, hd]
  · intro c rc req v e hc hd
    have houtcome := sendRequest_outcome c rc req v hc
    refine ⟨?_, houtcome.1, houtcome.2⟩
    rw [sendRequest_events c rc req v hc]
    have hresp : logResponseDump c req = [] := by
      cases hl : c.responseDumpLogger with
      | none => simp [logResponseDump, hl]
      | some u =>
        cases hr : req.sendOutcome.1 with
        | none => simp [logResponseDump, hl, hr]
        | some r => simp [logResponseDump, hl, hr, hd]
    simp [hresp]

/-- Claim C9, witness: a client configured through
`WithResponseDumpLogger` gets the response dumped on success, and a
failed response serialization is swallowed. -/
theorem c9_witness :
    (sendRequest cfgRespLog respDumpOkReq false).events =
      logRequestDump cfgRespLog respDumpOkReq ++
        [DumpEvent.respDump [3, 4]] ∧
    ((sendRequest cfgRespLog respDumpFailReq false).events =
        logRequestDump cfgRespLog respDumpFailReq ∧
      (sendRequest cfgRespLog respDumpFailReq false).resp =
        (doRequest rcDefault respDumpFailReq false).1 ∧
      (sendRequest cfgRespLog respDumpFailReq false).err =
        (doRequest rcDefault respDumpFailReq false).2) :=
  ⟨c9_response_dump.2.1 cfgRespLog rcDefault respDumpOkReq false ()
     respOk [3, 4] rfl rfl rfl rfl,
   c9_response_dump.2.2 cfgRespLog rcDefault respDumpFailReq false
     (GoErr.base 11 "resp dump fail") rfl rfl⟩

/-- Claim C10: the `Error` message for a 502 with empty body and nil
underlying error built for URL u is exactly
`request to <u> failed. httpStatus: [ 502 ] responseBody: [  ]
error: [ <nil> ]`, and a statusCode of 0 renders as "no status". -/
theorem c10_error_message :
    (∀ u : String,
      HttpError.Error { url := u, statusCode := 502 } =
        "request to " ++ u ++
          " failed. httpStatus: [ 502 ] responseBody: [  ] error: [ <nil> ]") ∧
    (∀ e : HttpError, e.statusCode = 0 →
      HttpError.Error e =
        "request to " ++ e.url ++
          (" failed. httpStatus: [ " ++ "no status" ++
            (" ] responseBody: [ " ++ e.body ++
              (" ] error: [ " ++ (errText e.err ++ " ]"))))) := by
  constructor
  · intro u
    simp only [HttpError.Error, errText]
    rfl
  · intro e h
    simp [HttpError.Error, h]

/-- Claim C10, witness for the "no status" rendering. -/
theorem c10_witness :
    HttpError.Error { url := "http://svc/a", statusCode := 0,
                      body := "b", err := none } =
      "request to " ++ "http://svc/a" ++
        (" failed. httpStatus: [ " ++ "no status" ++
          (" ] responseBody: [ " ++ "b" ++
            (" ] error: [ " ++ (errText none ++ " ]")))) :=
  c10_error_message.2
    { url := "http://svc/a", statusCode := 0, body := "b", err := none }
    rfl
